import Mathlib

/-!
# Shallow embedding of the brainflow FreeEEG32 and StreamingBoard drivers

This file embeds the two board drivers of the repository,
`src/board_controller/freeeeg32/freeeeg32.cpp` and
`src/board_controller/streaming_board.cpp`, as pure Lean functions and
proves lifecycle, decoding and error-handling properties about them.

Modelling conventions:
* C++ member state becomes an explicit state record threaded through each
  operation; each operation returns its `BrainFlowExitCodes` result together
  with the successor state.
* Calls into external collaborators (the serial port, the multicast socket,
  the base-class `prepare_buffers`) are modelled by oracle parameters giving
  the collaborator's result; the driver code's branching on those results is
  translated verbatim.
* The background worker loops are modelled as pure functions over the finite
  sequence of bytes / receive events actually delivered before the liveness
  flag (`keep_alive`) is cleared; a blocking read that times out or the flag
  going false corresponds to the end of that sequence.
* Binary floating-point arithmetic of the decoder is idealised over `ℚ`.
-/

/-- The subset of the C++ `BrainFlowExitCodes` enum used by the two drivers
(values as in the source enum's order of appearance across both files). -/
inductive ExitCode where
  | STATUS_OK
  | PORT_ALREADY_OPEN_ERROR
  | UNABLE_TO_OPEN_PORT_ERROR
  | SET_PORT_ERROR
  | STREAM_ALREADY_RUN_ERROR
  | STREAM_THREAD_IS_NOT_RUNNING
  | INVALID_ARGUMENTS_ERROR
  | UNSUPPORTED_BOARD_ERROR
  | GENERAL_ERROR
  deriving DecidableEq, Repr

/-- The spec's abstract result-code vocabulary (§6 of the spec). -/
inductive SpecResultCode where
  | Ok
  | InvalidArgument
  | ResourceBusy
  | ResourceUnavailable
  | ConfigurationError
  | AlreadyRunning
  | NotRunning
  | UnsupportedOperation
  | GeneralError
  deriving DecidableEq, Repr

/-- Refinement mapping from the concrete exit codes to the spec's abstract
codes, read off the spec's own wording: §4.1 maps the missing-config check to
`InvalidArgument`, the open failures to `ResourceBusy`/`ResourceUnavailable`,
the settings-apply failure to `ConfigurationError`; §4.1 maps the lifecycle
guards to `AlreadyRunning`/`NotRunning` and `configure` to
`UnsupportedOperation`; the remaining failure, the relay's socket-init
failure, is `GeneralError`. The spec lists exactly nine codes and the two
drivers use exactly nine enum values, so the mapping is the evident
bijection. -/
def specCodeOf : ExitCode → SpecResultCode
  | ExitCode.STATUS_OK => SpecResultCode.Ok
  | ExitCode.PORT_ALREADY_OPEN_ERROR => SpecResultCode.ResourceBusy
  | ExitCode.UNABLE_TO_OPEN_PORT_ERROR => SpecResultCode.ResourceUnavailable
  | ExitCode.SET_PORT_ERROR => SpecResultCode.ConfigurationError
  | ExitCode.STREAM_ALREADY_RUN_ERROR => SpecResultCode.AlreadyRunning
  | ExitCode.STREAM_THREAD_IS_NOT_RUNNING => SpecResultCode.NotRunning
  | ExitCode.INVALID_ARGUMENTS_ERROR => SpecResultCode.InvalidArgument
  | ExitCode.UNSUPPORTED_BOARD_ERROR => SpecResultCode.UnsupportedOperation
  | ExitCode.GENERAL_ERROR => SpecResultCode.GeneralError

/-- The caller-supplied configuration fields the two drivers read from
`struct BrainFlowInputParams`. -/
structure InputParams where
  ip_address : String
  ip_port : Nat
  other_info : String
  serial_port : String
  deriving DecidableEq, Repr

/-- The whitespace characters skipped by `std::stoi` (C `isspace`). -/
def stoiSpace : List Char := [' ', '\t', '\n', '\x0b', '\x0c', '\r']

/-- Longest leading run of decimal digits, as digit values. -/
def digitsPrefix : List Char → List Nat
  | [] => []
  | c :: rest => if c.isDigit then (c.toNat - 48) :: digitsPrefix rest else []

/-- Model of `std::stoi` as used in `StreamingBoard::prepare_session`:
skip leading whitespace, accept an optional sign, then require at least one
decimal digit and parse the longest digit prefix; `none` models the thrown
`std::invalid_argument` (no digits) or `std::out_of_range` (value outside
the 32-bit `int` range). -/
def stoi (s : String) : Option Int :=
  let cs := s.data.dropWhile (fun c => stoiSpace.contains c)
  let signAndRest : Int × List Char :=
    match cs with
    | '-' :: rest => (-1, rest)
    | '+' :: rest => (1, rest)
    | _ => (1, cs)
  let ds := digitsPrefix signAndRest.2
  if ds = [] then none
  else
    let v : Int := signAndRest.1 * ((ds.foldl (fun acc d => acc * 10 + d) 0 : Nat) : Int)
    if v < -2147483648 ∨ 2147483647 < v then none else some v

namespace FreeEEG32

/-- Member state of a `FreeEEG32` object: the owned `Serial *` handle
(`some portName` when non-NULL), the `streamer` sink pointer, the lifecycle
flags, and the board id set at construction. -/
structure State where
  serial : Option String
  streamer : Bool
  is_streaming : Bool
  keep_alive : Bool
  initialized : Bool
  deriving DecidableEq, Repr

/-- The constructor `FreeEEG32::FreeEEG32`: all handles null, all flags
false. -/
def initState : State :=
  { serial := none, streamer := false, is_streaming := false,
    keep_alive := false, initialized := false }

/-- Oracle results of the external serial-port operations invoked during
`prepare_session`. -/
structure SerialEnv where
  port_already_open : Bool
  open_res : Int
  set_settings_res : Int
  set_baud_res : Int
  deriving DecidableEq, Repr

/-- `FreeEEG32::open_port`: reject an already-open port, then attempt the
OS-level open. -/
def open_port (env : SerialEnv) : ExitCode :=
  if env.port_already_open then ExitCode.PORT_ALREADY_OPEN_ERROR
  else if env.open_res < 0 then ExitCode.UNABLE_TO_OPEN_PORT_ERROR
  else ExitCode.STATUS_OK

/-- `FreeEEG32::set_port_settings`: apply the 1000 ms timeout settings, and
on non-Windows additionally the 921600 custom baud rate; any failure is
`SET_PORT_ERROR`. `is_win` models the `_WIN32` conditional. -/
def set_port_settings (is_win : Bool) (env : SerialEnv) : ExitCode :=
  if env.set_settings_res < 0 then ExitCode.SET_PORT_ERROR
  else if is_win then ExitCode.STATUS_OK
  else if env.set_baud_res < 0 then ExitCode.SET_PORT_ERROR
  else ExitCode.STATUS_OK

/-- `FreeEEG32::prepare_session`. Besides the exit code and successor state
it returns the number of OS-level open attempts performed
(`serial->open_serial_port()` calls), used to state invariant I2 / P1. -/
def prepare_session (is_win : Bool) (env : SerialEnv) (params : InputParams)
    (s : State) : ExitCode × State × Nat :=
  if s.initialized then (ExitCode.STATUS_OK, s, 0)
  else if params.serial_port = "" then (ExitCode.INVALID_ARGUMENTS_ERROR, s, 0)
  else
    let s1 := { s with serial := some params.serial_port }
    let opens := if env.port_already_open then 0 else 1
    let port_open := open_port env
    if port_open ≠ ExitCode.STATUS_OK then
      (port_open, { s1 with serial := none }, opens)
    else
      let set_settings := set_port_settings is_win env
      if set_settings ≠ ExitCode.STATUS_OK then
        (set_settings, { s1 with serial := none }, opens)
      else
        (ExitCode.STATUS_OK, { s1 with initialized := true }, opens)

/-- `FreeEEG32::start_stream`. `pb_res` is the oracle result of the external
base-class `prepare_buffers` call; modelled from the spec: on success it
allocates the delivery Sink (`streamer`). -/
def start_stream (pb_res : ExitCode) (s : State) : ExitCode × State :=
  if s.is_streaming then (ExitCode.STREAM_ALREADY_RUN_ERROR, s)
  else if pb_res ≠ ExitCode.STATUS_OK then (pb_res, s)
  else
    (ExitCode.STATUS_OK,
      { s with streamer := true, keep_alive := true, is_streaming := true })

/-- `FreeEEG32::stop_stream`: clear the liveness flag, join the worker, free
the streamer. -/
def stop_stream (s : State) : ExitCode × State :=
  if s.is_streaming then
    (ExitCode.STATUS_OK,
      { s with keep_alive := false, is_streaming := false, streamer := false })
  else (ExitCode.STREAM_THREAD_IS_NOT_RUNNING, s)

/-- `FreeEEG32::release_session`: stop if streaming, clear `initialized`,
then close and delete the serial handle whenever it is non-null. -/
def release_session (s : State) : ExitCode × State :=
  let s1 :=
    if s.initialized then
      let s0 := if s.is_streaming then (stop_stream s).2 else s
      { s0 with initialized := false }
    else s
  let s2 := if s1.serial.isSome then { s1 with serial := none } else s1
  (ExitCode.STATUS_OK, s2)

/-- `FreeEEG32::config_board`: always unsupported. -/
def config_board (s : State) : ExitCode × State :=
  (ExitCode.UNSUPPORTED_BOARD_ERROR, s)

end FreeEEG32

namespace StreamingBoard

/-- Member state of a `StreamingBoard` object: the owned `MultiCastClient *`
(`some (ip, port)` when non-NULL), the `streamer` sink pointer, the
lifecycle flags, and the (mutable) protected `board_id`. -/
structure State where
  client : Option (String × Nat)
  streamer : Bool
  is_streaming : Bool
  keep_alive : Bool
  initialized : Bool
  board_id : Int
  deriving DecidableEq, Repr

/-- `BoardIds::STREAMING_BOARD`, the board id set by the constructor.
Modelled from the spec and the constructor comment (the header defining the
enum is external to the two source files); its exact value is irrelevant to
the theorems below beyond being the pre-`prepare` value of `board_id`. -/
def STREAMING_BOARD_ID : Int := -2

/-- The constructor `StreamingBoard::StreamingBoard`: null client, flags
false, `board_id` temporarily the streaming-board id. -/
def initState : State :=
  { client := none, streamer := false, is_streaming := false,
    keep_alive := false, initialized := false, board_id := STREAMING_BOARD_ID }

/-- `StreamingBoard::prepare_session`. `init_res` is the oracle result of
the external `MultiCastClient::init` (`0` = `MultiCastReturnCodes::STATUS_OK`).
The third component counts socket acquisitions (`new MultiCastClient` +
`init` attempts), used to state invariant I2 / P1. -/
def prepare_session (init_res : Int) (params : InputParams)
    (s : State) : ExitCode × State × Nat :=
  if s.initialized then (ExitCode.STATUS_OK, s, 0)
  else if params.ip_address = "" ∨ params.other_info = "" ∨ params.ip_port = 0 then
    (ExitCode.INVALID_ARGUMENTS_ERROR, s, 0)
  else
    match stoi params.other_info with
    | none => (ExitCode.INVALID_ARGUMENTS_ERROR, s, 0)
    | some delegate_id =>
      let s1 := { s with board_id := delegate_id,
                         client := some (params.ip_address, params.ip_port) }
      if init_res ≠ 0 then (ExitCode.GENERAL_ERROR, s1, 1)
      else (ExitCode.STATUS_OK, { s1 with initialized := true }, 1)

/-- `StreamingBoard::config_board`: always unsupported. -/
def config_board (s : State) : ExitCode × State :=
  (ExitCode.UNSUPPORTED_BOARD_ERROR, s)

/-- `StreamingBoard::start_stream`, with `pb_res` the oracle result of the
external `prepare_buffers` (on success it allocates the Sink). -/
def start_stream (pb_res : ExitCode) (s : State) : ExitCode × State :=
  if s.is_streaming then (ExitCode.STREAM_ALREADY_RUN_ERROR, s)
  else if pb_res ≠ ExitCode.STATUS_OK then (pb_res, s)
  else
    (ExitCode.STATUS_OK,
      { s with streamer := true, keep_alive := true, is_streaming := true })

/-- `StreamingBoard::stop_stream`. -/
def stop_stream (s : State) : ExitCode × State :=
  if s.is_streaming then
    (ExitCode.STATUS_OK,
      { s with keep_alive := false, is_streaming := false, streamer := false })
  else (ExitCode.STREAM_THREAD_IS_NOT_RUNNING, s)

/-- `StreamingBoard::release_session`: only under `if (initialized)` does it
stop the stream, clear `initialized` and delete the client; a
never-initialized session is returned untouched. -/
def release_session (s : State) : ExitCode × State :=
  if s.initialized then
    let s0 := if s.is_streaming then (stop_stream s).2 else s
    let s1 := { s0 with initialized := false }
    let s2 := if s1.client.isSome then { s1 with client := none } else s1
    (ExitCode.STATUS_OK, s2)
  else (ExitCode.STATUS_OK, s)

/-- One receive event of the relay worker: the byte count returned by
`client->recv` together with the 64-bit values it deposited into the front
of the `package` buffer. -/
structure RecvEvent where
  res : Nat
  data : List ℚ
  deriving DecidableEq, Repr

/-- A receive trace is well formed for channel count `n` when each event's
byte count matches its payload (8 bytes per `double`) and no event overruns
the `n`-element buffer — what the opaque `MultiCastClient::recv` guarantees
for a buffer of `bytes_per_recv = 8 * n` bytes. -/
def WFTrace (n : Nat) (evts : List RecvEvent) : Prop :=
  ∀ e ∈ evts, e.res = 8 * e.data.length ∧ e.data.length ≤ n

/-- `StreamingBoard::read_thread`'s loop body iterated over a finite receive
trace (the receives delivered while `keep_alive` held). `buf` is the
`package` buffer: each receive overwrites its front, and the buffer is
pushed to the sink exactly when the byte count equals
`bytes_per_recv = sizeof(double) * num_channels = 8 * n`; otherwise the
iteration only logs and continues. Returns the pushed samples in order. -/
def read_thread (n : Nat) (buf : List ℚ) : List RecvEvent → List (List ℚ)
  | [] => []
  | e :: rest =>
    let buf' := e.data ++ buf.drop e.data.length
    if e.res = 8 * n then buf' :: read_thread n buf' rest
    else read_thread n buf' rest

end StreamingBoard

/-- Modelled from the spec: the external board registry (`get_num_rows` of
`board_info_getter.h`) resolves, per board identifier, a ChannelLayout whose
sample-vector length is the channel count plus two fixed auxiliary fields (a
leading marker/sequence value and a trailing timestamp); the FreeEEG32 board
has 32 channels. -/
def get_num_rows_freeeeg32 : Nat := 32 + 2

namespace FreeEEG32

/-- `FreeEEG32::start_byte` (header constant; sentinel byte value). -/
def start_byte : Nat := 0xA0

/-- `FreeEEG32::end_byte` (header constant; sentinel byte value). -/
def end_byte : Nat := 0xC0

/-- `max_size` in `FreeEEG32::read_thread`: scan-buffer capacity. -/
def max_size : Nat := 200

/-- `min_package_size = 1 + 32 * 3` in `FreeEEG32::read_thread`. -/
def min_package_size : Nat := 1 + 32 * 3

/-- `FreeEEG32::ads_vref` (header constant, given by the spec as 4.5). -/
def ads_vref : ℚ := 9 / 2

/-- `FreeEEG32::ads_gain` (header constant, given by the spec as 24). -/
def ads_gain : ℚ := 24

/-- `eeg_scale = ads_vref / (2^23 - 1) / ads_gain * 1e6` as computed at the
top of `FreeEEG32::read_thread` (binary floating point idealised over `ℚ`). -/
def eeg_scale : ℚ := ads_vref / (2 ^ 23 - 1) / ads_gain * 1000000

/-- Modelled from the spec: `cast_24bit_to_int32` of the external
`custom_cast.h` interprets three bytes as a big-endian two's-complement
24-bit integer. -/
def cast_24bit_to_int32 (b0 b1 b2 : Nat) : Int :=
  let v : Int := (b0 : Int) * 65536 + (b1 : Int) * 256 + (b2 : Int)
  if v < 2 ^ 23 then v else v - 2 ^ 24

/-- Decoding of one complete frame `b` (the scan buffer `b[0..pos]`) into
the `package` array of `FreeEEG32::read_thread`: index 0 the raw marker byte
`b[0]`, indices `i + 1` for `i < 32` the scaled 3-byte channel values read
at byte offsets `1 + 3 i`, and index 33 the wall-clock timestamp `ts`
(`get_timestamp ()` is external; its value is the parameter `ts`). -/
def decodeFrame (ts : ℚ) (b : List Nat) : List ℚ :=
  ((b.getD 0 0 : Nat) : ℚ) ::
    ((List.range 32).map (fun i =>
      eeg_scale * ((cast_24bit_to_int32 (b.getD (1 + 3 * i) 0)
        (b.getD (2 + 3 * i) 0) (b.getD (3 + 3 * i) 0) : Int) : ℚ)))
    ++ [ts]

/-- The inner byte-scan loop of `FreeEEG32::read_thread`: starting from the
already-filled scan buffer `acc` (`b[0..pos-1]`, `pos = acc.length`), read
one byte at a time from the input stream while `pos < max_size - 2`. A read
byte `c` completes a frame when `c = start_byte`, the previous buffer byte
(`b[prev_id]`, which is `c` itself at `pos = 0`) is `end_byte`, and
`pos ≥ min_package_size`. Returns the completed frame `b[0..pos]` (if any)
and the unconsumed remainder of the stream; `none` is the
window-exhausted/stream-ended resynchronization outcome. -/
def scanWindow : List Nat → List Nat → Option (List Nat) × List Nat
  | acc, input =>
    if max_size - 2 ≤ acc.length then (none, input)
    else
      match input with
      | [] => (none, [])
      | c :: rest =>
        if c = start_byte ∧ acc.getLastD c = end_byte ∧
            min_package_size ≤ acc.length then
          (some (acc ++ [c]), rest)
        else scanWindow (acc ++ [c]) rest

/-- The outer loop of `FreeEEG32::read_thread`, fuelled: one unit of fuel
per outer iteration (each iteration consumes at least one input byte, so
`input.length` fuel is always enough — see `read_thread_run_fuel_stable`).
`fpr` is `first_package_received`; a completed frame is decoded and pushed
only when the flag is already set, the first one merely sets it. Returns
the pushed samples in order. -/
def read_thread_loop (ts : ℚ) : Nat → Bool → List Nat → List (List ℚ)
  | 0, _, _ => []
  | _ + 1, _, [] => []
  | fuel + 1, fpr, c :: rest =>
    match scanWindow [] (c :: rest) with
    | (none, rest') => read_thread_loop ts fuel fpr rest'
    | (some f, rest') =>
      if fpr then decodeFrame ts f :: read_thread_loop ts fuel true rest'
      else read_thread_loop ts fuel true rest'

/-- `FreeEEG32::read_thread` run over the finite byte stream `input` (the
bytes delivered by the serial port before `keep_alive` went false), with
`first_package_received` initially false. -/
def read_thread_run (ts : ℚ) (input : List Nat) : List (List ℚ) :=
  read_thread_loop ts input.length false input

/-- The sequence of complete frames the scan loop finds in `input` (the
same iteration structure as `read_thread_loop`, recording every completed
frame and ignoring the first-package flag). -/
def completedFrames : Nat → List Nat → List (List Nat)
  | 0, _ => []
  | _ + 1, [] => []
  | fuel + 1, c :: rest =>
    match scanWindow [] (c :: rest) with
    | (none, rest') => completedFrames fuel rest'
    | (some f, rest') => f :: completedFrames fuel rest'

/-- A minimal complete frame: 97 payload bytes, then the end/start sentinel
pair that terminates the scan (a fixture for witnesses). -/
def testFrame : List Nat := List.replicate 97 2 ++ [end_byte, start_byte]

/-- Two back-to-back complete frames (a fixture for witnesses). -/
def testInput : List Nat := testFrame ++ testFrame

/-- A frame whose 32 channel fields all hold the maximum positive 24-bit
value `0x7FFFFF` (a fixture for witnesses and counterexamples). -/
def maxFrame : List Nat :=
  0 :: (List.flatten (List.replicate 32 [0x7F, 0xFF, 0xFF])) ++ [end_byte, start_byte]

end FreeEEG32

/-- The relay session state produced by a `prepare_session` whose socket
init failed after the delegate id parsed: never initialized, but owning an
allocated client handle. -/
def leakedRelayState : StreamingBoard.State :=
  (StreamingBoard.prepare_session 1 ⟨"225.1.1.1", 6677, "0", ""⟩
    StreamingBoard.initState).2.1

/-! ## Helper lemmas about the serial worker loop -/

namespace FreeEEG32

theorem decodeFrame_length (ts : ℚ) (b : List Nat) :
    (decodeFrame ts b).length = 34 := by
  simp [decodeFrame]

theorem scanWindow_rest_le (input : List Nat) :
    ∀ acc, ((scanWindow acc input).2).length ≤ input.length := by
  induction input with
  | nil => intro acc; rw [scanWindow]; split <;> simp
  | cons c rest ih =>
    intro acc
    rw [scanWindow]
    split
    · simp
    · split
      · simp
      · exact le_trans (ih (acc ++ [c])) (Nat.le_succ _)

theorem scanWindow_rest_lt (c : Nat) (rest : List Nat) (acc : List Nat)
    (h : acc.length < max_size - 2) :
    ((scanWindow acc (c :: rest)).2).length < (c :: rest).length := by
  rw [scanWindow]
  rw [if_neg (by omega)]
  split
  · simp
  · exact Nat.lt_succ_of_le (scanWindow_rest_le rest (acc ++ [c]))

theorem read_thread_loop_fuel_succ (ts : ℚ) :
    ∀ fuel fpr input, input.length ≤ fuel →
      read_thread_loop ts fuel fpr input = read_thread_loop ts (fuel + 1) fpr input := by
  intro fuel
  induction fuel with
  | zero =>
    intro fpr input h
    have : input = [] := List.length_eq_zero.mp (Nat.le_zero.mp h)
    subst this
    rfl
  | succ f ih =>
    intro fpr input h
    match input with
    | [] => rfl
    | c :: rest =>
      have hlt : ((scanWindow [] (c :: rest)).2).length < (c :: rest).length :=
        scanWindow_rest_lt c rest [] (by simp [max_size])
      rw [read_thread_loop, read_thread_loop]
      rcases hsw : scanWindow [] (c :: rest) with ⟨of, rest'⟩
      have hr : rest'.length ≤ f := by
        have h2 := hlt
        rw [hsw] at h2
        simp only [] at h2
        omega
      cases of with
      | none => exact ih fpr rest' hr
      | some fr =>
        cases fpr with
        | false => exact ih true rest' hr
        | true =>
          show decodeFrame ts fr :: read_thread_loop ts f true rest' =
            decodeFrame ts fr :: read_thread_loop ts (f + 1) true rest'
          rw [ih true rest' hr]

theorem read_thread_loop_fuel_stable (ts : ℚ) :
    ∀ fuel fpr input, input.length ≤ fuel →
      read_thread_loop ts fuel fpr input = read_thread_loop ts input.length fpr input := by
  intro fuel
  induction fuel with
  | zero =>
    intro fpr input h
    have : input = [] := List.length_eq_zero.mp (Nat.le_zero.mp h)
    subst this
    rfl
  | succ f ih =>
    intro fpr input h
    rcases Nat.lt_or_ge input.length (f + 1) with hlt | hge
    · have hle : input.length ≤ f := by omega
      rw [← read_thread_loop_fuel_succ ts f fpr input hle]
      exact ih fpr input hle
    · have : input.length = f + 1 := by omega
      rw [this]

theorem read_thread_loop_true_eq (ts : ℚ) :
    ∀ fuel input, read_thread_loop ts fuel true input =
      (completedFrames fuel input).map (decodeFrame ts) := by
  intro fuel
  induction fuel with
  | zero => intro input; rfl
  | succ f ih =>
    intro input
    match input with
    | [] => rfl
    | c :: rest =>
      rw [read_thread_loop, completedFrames]
      rcases hsw : scanWindow [] (c :: rest) with ⟨of, rest'⟩
      cases of with
      | none => exact ih rest'
      | some fr => simp [ih rest']

theorem read_thread_loop_false_eq (ts : ℚ) :
    ∀ fuel input, read_thread_loop ts fuel false input =
      ((completedFrames fuel input).drop 1).map (decodeFrame ts) := by
  intro fuel
  induction fuel with
  | zero => intro input; rfl
  | succ f ih =>
    intro input
    match input with
    | [] => rfl
    | c :: rest =>
      rw [read_thread_loop, completedFrames]
      rcases hsw : scanWindow [] (c :: rest) with ⟨of, rest'⟩
      cases of with
      | none => exact ih rest'
      | some fr => simpa using read_thread_loop_true_eq ts f rest'

theorem read_thread_loop_mem_length (ts : ℚ) :
    ∀ fuel fpr input pkg, pkg ∈ read_thread_loop ts fuel fpr input →
      pkg.length = 34 := by
  intro fuel fpr input pkg hmem
  cases fpr with
  | false =>
    rw [read_thread_loop_false_eq] at hmem
    rcases List.mem_map.mp hmem with ⟨f, _, rfl⟩
    exact decodeFrame_length ts f
  | true =>
    rw [read_thread_loop_true_eq] at hmem
    rcases List.mem_map.mp hmem with ⟨f, _, rfl⟩
    exact decodeFrame_length ts f

end FreeEEG32

namespace StreamingBoard

theorem read_thread_mem_length :
    ∀ (evts : List RecvEvent) (n : Nat) (buf : List ℚ) (pkg : List ℚ),
      (∀ e ∈ evts, e.data.length ≤ n) → buf.length = n →
      pkg ∈ read_thread n buf evts → pkg.length = n := by
  intro evts
  induction evts with
  | nil => intro n buf pkg _ _ hmem; simp [read_thread] at hmem
  | cons e rest ih =>
    intro n buf pkg hwf hbuf hmem
    have hdat : e.data.length ≤ n := hwf e (by simp)
    have hbuf' : (e.data ++ buf.drop e.data.length).length = n := by
      simp only [List.length_append, List.length_drop, hbuf]
      omega
    have hwf' : ∀ x ∈ rest, x.data.length ≤ n := fun x hx => hwf x (by simp [hx])
    rw [read_thread] at hmem
    by_cases hres : e.res = 8 * n
    · rw [if_pos hres] at hmem
      rcases List.mem_cons.mp hmem with h | h
      · rw [h]; exact hbuf'
      · exact ih n _ pkg hwf' hbuf' h
    · rw [if_neg hres] at hmem
      exact ih n _ pkg hwf' hbuf' hmem

end StreamingBoard

/-! ## Evaluation of the fixtures -/

set_option maxRecDepth 40000 in
theorem read_thread_run_testInput (ts : ℚ) :
    FreeEEG32.read_thread_run ts FreeEEG32.testInput =
      [FreeEEG32.decodeFrame ts FreeEEG32.testFrame] := rfl

theorem streaming_read_thread_fixture :
    StreamingBoard.read_thread 2 [0, 0] [⟨16, [1, 2]⟩] = [[1, 2]] := rfl

/-! ## The claims -/

/-- C3: every sample vector passed to `push_package` has exactly the
ChannelLayout length, regardless of garbage bytes, truncated frames or short
packets: (a) every sample pushed by `FreeEEG32::read_thread` has the
registry-resolved row count of the FreeEEG32 board; (b) the serial decoder's
hardcoded layout (1 marker + 32 channels + 1 timestamp, indices 0..33)
equals that registry row count; (c) every sample pushed by
`StreamingBoard::read_thread` has the row count `n` resolved for the
session's board identifier (for any well-formed receive trace and buffer).
The registry itself is external and modelled from the spec
(`get_num_rows_freeeeg32`). -/
theorem C3_pushed_sample_lengths :
    (∀ (ts : ℚ) (input : List Nat) (pkg : List ℚ),
        pkg ∈ FreeEEG32.read_thread_run ts input →
        pkg.length = get_num_rows_freeeeg32) ∧
    (∀ (ts : ℚ) (b : List Nat),
        (FreeEEG32.decodeFrame ts b).length = get_num_rows_freeeeg32) ∧
    (∀ (n : Nat) (buf : List ℚ) (evts : List StreamingBoard.RecvEvent)
        (pkg : List ℚ), StreamingBoard.WFTrace n evts → buf.length = n →
        pkg ∈ StreamingBoard.read_thread n buf evts → pkg.length = n) := by
  refine ⟨?_, ?_, ?_⟩
  · intro ts input pkg hmem
    exact FreeEEG32.read_thread_loop_mem_length ts input.length false input pkg hmem
  · intro ts b
    exact FreeEEG32.decodeFrame_length ts b
  · intro n buf evts pkg hwf hbuf hmem
    exact StreamingBoard.read_thread_mem_length evts n buf pkg
      (fun e he => (hwf e he).2) hbuf hmem

/-- Witness for C3 at concrete inputs: the sample pushed for the second of
two back-to-back serial frames has the registry length, and the sample the
relay pushes for a full 16-byte receive with two channels has length 2. -/
theorem C3_pushed_sample_lengths_witness :
    (FreeEEG32.decodeFrame 0 FreeEEG32.testFrame).length = get_num_rows_freeeeg32 ∧
    ([1, 2] : List ℚ).length = 2 :=
  ⟨C3_pushed_sample_lengths.1 0 FreeEEG32.testInput
      (FreeEEG32.decodeFrame 0 FreeEEG32.testFrame)
      (by rw [read_thread_run_testInput]; exact List.mem_singleton.mpr rfl),
   C3_pushed_sample_lengths.2.2 2 [0, 0] [⟨16, [1, 2]⟩] [1, 2]
      (by unfold StreamingBoard.WFTrace; decide) rfl
      (by rw [streaming_read_thread_fixture]; exact List.mem_singleton.mpr rfl)⟩

/-- C4: in every run of `FreeEEG32::read_thread` exactly the first complete
frame found after worker start is discarded and every complete frame found
afterwards in the same run is decoded and pushed — also after an intervening
desynchronization, since `completedFrames` records every completed frame of
the run, across scan-window exhaustions: the pushed samples are precisely
the decodes of all completed frames except the first (once per worker
lifetime, not once per resynchronization). -/
theorem C4_first_frame_discarded_once_per_run (ts : ℚ) (input : List Nat) :
    FreeEEG32.read_thread_run ts input =
      ((FreeEEG32.completedFrames input.length input).drop 1).map
        (FreeEEG32.decodeFrame ts) :=
  FreeEEG32.read_thread_loop_false_eq ts input.length input

/-- C5 counterexample: the claim says the maximum positive raw channel value
`0x7FFFFF` decodes to `4.5/(2^23−1)/24×1e6` microvolts; on the code it
decodes to `187500` microvolts (the factor `2^23−1` cancels against the raw
value), which differs from the claimed quantity (≈ 22.35) by far more than
any floating-point tolerance. -/
theorem C5_scaling_cex :
    (FreeEEG32.decodeFrame 0 FreeEEG32.maxFrame).getD 1 0 = 187500 ∧
    (187500 : ℚ) ≠ FreeEEG32.ads_vref / (2 ^ 23 - 1) / FreeEEG32.ads_gain * 1000000 := by
  constructor
  · show FreeEEG32.eeg_scale * ((FreeEEG32.cast_24bit_to_int32 0x7F 0xFF 0xFF : Int) : ℚ) =
      187500
    norm_num [FreeEEG32.eeg_scale, FreeEEG32.ads_vref, FreeEEG32.ads_gain,
      FreeEEG32.cast_24bit_to_int32]
  · norm_num [FreeEEG32.ads_vref, FreeEEG32.ads_gain]

/-- C5 (amended): each channel field `i + 1` of a decoded frame equals the
channel's 3-byte big-endian two's-complement integer times the scale
`Vref / (2^23 − 1) / Gain × 1e6` with `Vref = 4.5`, `Gain = 24`; in
particular the maximum positive raw value `0x7FFFFF = 2^23 − 1` decodes to
`4.5 / 24 × 1e6 = 187500` microvolts (the claimed `4.5/(2^23−1)/24×1e6` is
the per-unit scale, not the decoded value). -/
theorem C5_channel_scaling_amended :
    (∀ (ts : ℚ) (b : List Nat) (i : Nat), i < 32 →
        (FreeEEG32.decodeFrame ts b).getD (i + 1) 0 =
          FreeEEG32.eeg_scale *
            ((FreeEEG32.cast_24bit_to_int32 (b.getD (1 + 3 * i) 0)
              (b.getD (2 + 3 * i) 0) (b.getD (3 + 3 * i) 0) : Int) : ℚ)) ∧
    FreeEEG32.eeg_scale * ((FreeEEG32.cast_24bit_to_int32 0x7F 0xFF 0xFF : Int) : ℚ) =
      FreeEEG32.ads_vref / FreeEEG32.ads_gain * 1000000 ∧
    FreeEEG32.ads_vref / FreeEEG32.ads_gain * 1000000 = (187500 : ℚ) := by
  refine ⟨?_, ?_, ?_⟩
  · intro ts b i hi
    interval_cases i <;> rfl
  · norm_num [FreeEEG32.eeg_scale, FreeEEG32.ads_vref, FreeEEG32.ads_gain,
      FreeEEG32.cast_24bit_to_int32]
  · norm_num [FreeEEG32.ads_vref, FreeEEG32.ads_gain]

/-- Witness for C5 (amended) at channel 0 of the all-maximum frame. -/
theorem C5_channel_scaling_witness :
    (FreeEEG32.decodeFrame 0 FreeEEG32.maxFrame).getD 1 0 =
      FreeEEG32.eeg_scale *
        ((FreeEEG32.cast_24bit_to_int32 (FreeEEG32.maxFrame.getD 1 0)
          (FreeEEG32.maxFrame.getD 2 0) (FreeEEG32.maxFrame.getD 3 0) : Int) : ℚ) :=
  C5_channel_scaling_amended.1 0 FreeEEG32.maxFrame 0 (by decide)

/-- C1 counterexample: with the multicast group and port set and the
free-form delegate field `"aaa"` (non-empty, not parsable to an integer),
`StreamingBoard::prepare_session` returns `INVALID_ARGUMENTS_ERROR`, whose
spec-level code is `InvalidArgument`, not `ConfigurationError` (the code the
spec assigns to the settings-apply failure); the session stays unprepared. -/
theorem C1_unparsable_delegate_cex :
    stoi "aaa" = none ∧
    (StreamingBoard.prepare_session 0 ⟨"225.1.1.1", 6677, "aaa", ""⟩
        StreamingBoard.initState).1 = ExitCode.INVALID_ARGUMENTS_ERROR ∧
    specCodeOf ExitCode.INVALID_ARGUMENTS_ERROR ≠ SpecResultCode.ConfigurationError ∧
    (StreamingBoard.prepare_session 0 ⟨"225.1.1.1", 6677, "aaa", ""⟩
        StreamingBoard.initState).2.1.initialized = false := by
  refine ⟨?_, ?_, ?_, ?_⟩ <;> decide

/-- C1 (amended): for every unprepared session whose free-form delegate
field is non-empty but does not parse to an integer, the relay's
`prepare_session` returns `INVALID_ARGUMENTS_ERROR` — the spec's
`InvalidArgument` code, the same code used for missing configuration, not a
distinct `ConfigurationError` — with the session state entirely unchanged,
in particular still unprepared. -/
theorem C1_unparsable_delegate_amended (init_res : Int) (params : InputParams)
    (s : StreamingBoard.State) (h0 : s.initialized = false)
    (hne : params.other_info ≠ "") (hp : stoi params.other_info = none) :
    StreamingBoard.prepare_session init_res params s =
      (ExitCode.INVALID_ARGUMENTS_ERROR, s, 0) := by
  unfold StreamingBoard.prepare_session
  rw [h0]
  simp only [Bool.false_eq_true, if_false]
  by_cases hempty : params.ip_address = "" ∨ params.other_info = "" ∨ params.ip_port = 0
  · rw [if_pos hempty]
  · rw [if_neg hempty, hp]

/-- Witness for C1 (amended) at a concrete unparsable configuration. -/
theorem C1_unparsable_delegate_witness :
    StreamingBoard.prepare_session 0 ⟨"225.1.1.1", 6677, "aaa", ""⟩
      StreamingBoard.initState =
      (ExitCode.INVALID_ARGUMENTS_ERROR, StreamingBoard.initState, 0) :=
  C1_unparsable_delegate_amended 0 ⟨"225.1.1.1", 6677, "aaa", ""⟩
    StreamingBoard.initState rfl (by decide) (by decide)

/-- C2 counterexample: when the relay's socket init fails (after the
delegate identifier parsed), `prepare_session` returns with the allocated
`MultiCastClient` handle still owned and non-null — the partially acquired
transport resource is not cleaned up before returning, contrary to the
claim. -/
theorem C2_partial_cleanup_cex :
    (StreamingBoard.prepare_session 1 ⟨"225.1.1.1", 6677, "0", ""⟩
        StreamingBoard.initState).1 = ExitCode.GENERAL_ERROR ∧
    (StreamingBoard.prepare_session 1 ⟨"225.1.1.1", 6677, "0", ""⟩
        StreamingBoard.initState).2.1.client ≠ none := by
  refine ⟨?_, ?_⟩ <;> decide

/-- C2 (amended): for the serial driver every post-allocation `prepare`
failure (port already open, OS open failure, settings-apply failure — the
failures other than the missing-argument fast path) resets the owned
transport handle to null and leaves every other session field, in particular
`initialized = false`, unchanged; for the relay driver a socket-init failure
leaves the session unprepared (`initialized = false`) but retains the
allocated client handle — it is not cleaned up before returning. -/
theorem C2_partial_cleanup_amended :
    (∀ (is_win : Bool) (env : FreeEEG32.SerialEnv) (params : InputParams)
        (s : FreeEEG32.State), s.initialized = false →
        (FreeEEG32.prepare_session is_win env params s).1 ≠ ExitCode.STATUS_OK →
        (FreeEEG32.prepare_session is_win env params s).1 ≠ ExitCode.INVALID_ARGUMENTS_ERROR →
        (FreeEEG32.prepare_session is_win env params s).2.1 = { s with serial := none }) ∧
    (∀ (init_res : Int) (params : InputParams) (s : StreamingBoard.State) (d : Int),
        s.initialized = false → stoi params.other_info = some d → init_res ≠ 0 →
        params.ip_address ≠ "" → params.other_info ≠ "" → params.ip_port ≠ 0 →
        (StreamingBoard.prepare_session init_res params s).1 = ExitCode.GENERAL_ERROR ∧
        (StreamingBoard.prepare_session init_res params s).2.1.initialized = false ∧
        (StreamingBoard.prepare_session init_res params s).2.1.client =
          some (params.ip_address, params.ip_port)) := by
  constructor
  · intro is_win env params s h0 hfail hinval
    unfold FreeEEG32.prepare_session at hfail hinval ⊢
    rw [h0] at hfail hinval ⊢
    simp only [Bool.false_eq_true, if_false] at hfail hinval ⊢
    by_cases hser : params.serial_port = ""
    · rw [if_pos hser] at hinval
      exact absurd rfl hinval
    · rw [if_neg hser] at hfail ⊢
      by_cases hopen : FreeEEG32.open_port env ≠ ExitCode.STATUS_OK
      · simp only [if_pos hopen]
      · simp only [if_neg hopen] at hfail ⊢
        by_cases hset : FreeEEG32.set_port_settings is_win env ≠ ExitCode.STATUS_OK
        · simp only [if_pos hset]
        · simp only [if_neg hset] at hfail
          exact absurd rfl hfail
  · intro init_res params s d h0 hstoi hinit hip hinfo hport
    unfold StreamingBoard.prepare_session
    rw [h0]
    simp only [Bool.false_eq_true, if_false]
    rw [if_neg (by push_neg; exact ⟨hip, hinfo, hport⟩), hstoi]
    simp [hinit]

/-- Witness for C2 (amended): the serial driver at a failing OS-level open
(handle cleaned up), and the relay driver at a failing socket init (client
retained). -/
theorem C2_partial_cleanup_witness :
    (FreeEEG32.prepare_session false ⟨true, -1, 0, 0⟩ ⟨"", 0, "", "p"⟩
        FreeEEG32.initState).2.1 = { FreeEEG32.initState with serial := none } ∧
    (StreamingBoard.prepare_session 1 ⟨"225.1.1.1", 6677, "0", ""⟩
        StreamingBoard.initState).2.1.client = some ("225.1.1.1", 6677) :=
  ⟨C2_partial_cleanup_amended.1 false ⟨true, -1, 0, 0⟩ ⟨"", 0, "", "p"⟩
      FreeEEG32.initState rfl (by decide) (by decide),
   (C2_partial_cleanup_amended.2 1 ⟨"225.1.1.1", 6677, "0", ""⟩
      StreamingBoard.initState 0 rfl (by decide) (by decide) (by decide)
      (by decide) (by decide)).2.2⟩

/-- C6: for both drivers, `start_stream` on a streaming session returns
`STREAM_ALREADY_RUN_ERROR` (the spec's `AlreadyRunning`) and `stop_stream`
on a non-streaming session returns `STREAM_THREAD_IS_NOT_RUNNING` (the
spec's `NotRunning`); in both failure cases the entire session state —
initialized flag, streaming flag, liveness flag, transport handle, sink
handle — is returned unchanged. -/
theorem C6_lifecycle_guards :
    (∀ (pb : ExitCode) (s : FreeEEG32.State), s.is_streaming = true →
        FreeEEG32.start_stream pb s = (ExitCode.STREAM_ALREADY_RUN_ERROR, s)) ∧
    (∀ s : FreeEEG32.State, s.is_streaming = false →
        FreeEEG32.stop_stream s = (ExitCode.STREAM_THREAD_IS_NOT_RUNNING, s)) ∧
    (∀ (pb : ExitCode) (s : StreamingBoard.State), s.is_streaming = true →
        StreamingBoard.start_stream pb s = (ExitCode.STREAM_ALREADY_RUN_ERROR, s)) ∧
    (∀ s : StreamingBoard.State, s.is_streaming = false →
        StreamingBoard.stop_stream s = (ExitCode.STREAM_THREAD_IS_NOT_RUNNING, s)) := by
  refine ⟨?_, ?_, ?_, ?_⟩
  · intro pb s h; simp [FreeEEG32.start_stream, h]
  · intro s h; simp [FreeEEG32.stop_stream, h]
  · intro pb s h; simp [StreamingBoard.start_stream, h]
  · intro s h; simp [StreamingBoard.stop_stream, h]

/-- Witness for C6 at concrete streaming / idle session states. -/
theorem C6_lifecycle_guards_witness :
    FreeEEG32.start_stream ExitCode.STATUS_OK
        { FreeEEG32.initState with is_streaming := true } =
      (ExitCode.STREAM_ALREADY_RUN_ERROR,
        { FreeEEG32.initState with is_streaming := true }) ∧
    FreeEEG32.stop_stream FreeEEG32.initState =
      (ExitCode.STREAM_THREAD_IS_NOT_RUNNING, FreeEEG32.initState) ∧
    StreamingBoard.start_stream ExitCode.STATUS_OK
        { StreamingBoard.initState with is_streaming := true } =
      (ExitCode.STREAM_ALREADY_RUN_ERROR,
        { StreamingBoard.initState with is_streaming := true }) ∧
    StreamingBoard.stop_stream StreamingBoard.initState =
      (ExitCode.STREAM_THREAD_IS_NOT_RUNNING, StreamingBoard.initState) :=
  ⟨C6_lifecycle_guards.1 ExitCode.STATUS_OK _ rfl,
   C6_lifecycle_guards.2.1 _ rfl,
   C6_lifecycle_guards.2.2.1 ExitCode.STATUS_OK _ rfl,
   C6_lifecycle_guards.2.2.2 _ rfl⟩

/-- A session already prepared: `prepare_session` is a pure no-op success. -/
theorem freeeeg32_prepare_already_initialized (w : Bool) (env : FreeEEG32.SerialEnv)
    (p : InputParams) (s : FreeEEG32.State) (h : s.initialized = true) :
    FreeEEG32.prepare_session w env p s = (ExitCode.STATUS_OK, s, 0) := by
  simp [FreeEEG32.prepare_session, h]

/-- A successful first `prepare_session` performs exactly one open attempt
and leaves the session initialized. -/
theorem freeeeg32_prepare_success_opens_once (w : Bool) (env : FreeEEG32.SerialEnv)
    (p : InputParams) (s : FreeEEG32.State) (h0 : s.initialized = false)
    (hok : (FreeEEG32.prepare_session w env p s).1 = ExitCode.STATUS_OK) :
    (FreeEEG32.prepare_session w env p s).2.2 = 1 ∧
    (FreeEEG32.prepare_session w env p s).2.1.initialized = true := by
  by_cases h1 : p.serial_port = "" <;>
  by_cases h2 : env.port_already_open <;>
  by_cases h3 : env.open_res < 0 <;>
  by_cases h4 : FreeEEG32.set_port_settings w env = ExitCode.STATUS_OK <;>
  simp_all [FreeEEG32.prepare_session, FreeEEG32.open_port]

/-- A session already prepared: the relay's `prepare_session` is a pure
no-op success. -/
theorem streaming_prepare_already_initialized (r : Int) (p : InputParams)
    (s : StreamingBoard.State) (h : s.initialized = true) :
    StreamingBoard.prepare_session r p s = (ExitCode.STATUS_OK, s, 0) := by
  simp [StreamingBoard.prepare_session, h]

/-- A successful first relay `prepare_session` performs exactly one socket
acquisition and leaves the session initialized. -/
theorem streaming_prepare_success_opens_once (r : Int) (p : InputParams)
    (s : StreamingBoard.State) (h0 : s.initialized = false)
    (hok : (StreamingBoard.prepare_session r p s).1 = ExitCode.STATUS_OK) :
    (StreamingBoard.prepare_session r p s).2.2 = 1 ∧
    (StreamingBoard.prepare_session r p s).2.1.initialized = true := by
  by_cases h1 : p.ip_address = "" ∨ p.other_info = "" ∨ p.ip_port = 0 <;>
  rcases hstoi : stoi p.other_info with _ | d <;>
  by_cases h2 : r = 0 <;>
  simp_all [StreamingBoard.prepare_session]

/-- C7: for both drivers, a second `prepare_session` without an intervening
release on a session whose first prepare succeeded returns `STATUS_OK`,
performs no further resource acquisition (its open count is 0, while the
first successful call performed exactly one acquisition), and changes no
session field — and this regardless of the environment or parameters passed
to the second call. -/
theorem C7_idempotent_prepare :
    (∀ (w w2 : Bool) (env env2 : FreeEEG32.SerialEnv) (p p2 : InputParams)
        (s : FreeEEG32.State), s.initialized = false →
        (FreeEEG32.prepare_session w env p s).1 = ExitCode.STATUS_OK →
        (FreeEEG32.prepare_session w env p s).2.2 = 1 ∧
        FreeEEG32.prepare_session w2 env2 p2 (FreeEEG32.prepare_session w env p s).2.1 =
          (ExitCode.STATUS_OK, (FreeEEG32.prepare_session w env p s).2.1, 0)) ∧
    (∀ (r r2 : Int) (p p2 : InputParams) (s : StreamingBoard.State),
        s.initialized = false →
        (StreamingBoard.prepare_session r p s).1 = ExitCode.STATUS_OK →
        (StreamingBoard.prepare_session r p s).2.2 = 1 ∧
        StreamingBoard.prepare_session r2 p2 (StreamingBoard.prepare_session r p s).2.1 =
          (ExitCode.STATUS_OK, (StreamingBoard.prepare_session r p s).2.1, 0)) := by
  constructor
  · intro w w2 env env2 p p2 s h0 hok
    obtain ⟨hopens, hini⟩ := freeeeg32_prepare_success_opens_once w env p s h0 hok
    exact ⟨hopens, freeeeg32_prepare_already_initialized w2 env2 p2 _ hini⟩
  · intro r r2 p p2 s h0 hok
    obtain ⟨hopens, hini⟩ := streaming_prepare_success_opens_once r p s h0 hok
    exact ⟨hopens, streaming_prepare_already_initialized r2 p2 _ hini⟩

/-- Witness for C7 at a concrete all-success environment for both drivers. -/
theorem C7_idempotent_prepare_witness :
    (FreeEEG32.prepare_session false ⟨false, 0, 0, 0⟩ ⟨"", 0, "", "p"⟩
        FreeEEG32.initState).2.2 = 1 ∧
    (StreamingBoard.prepare_session 0 ⟨"225.1.1.1", 6677, "0", ""⟩
        StreamingBoard.initState).2.2 = 1 :=
  ⟨(C7_idempotent_prepare.1 false false ⟨false, 0, 0, 0⟩ ⟨false, 0, 0, 0⟩
      ⟨"", 0, "", "p"⟩ ⟨"", 0, "", "p"⟩ FreeEEG32.initState rfl (by decide)).1,
   (C7_idempotent_prepare.2 0 0 ⟨"225.1.1.1", 6677, "0", ""⟩
      ⟨"225.1.1.1", 6677, "0", ""⟩ StreamingBoard.initState rfl (by decide)).1⟩

/-- C8: in each iteration of the relay worker loop, a receive whose byte
count differs from `bytes_per_recv = 8 * n` pushes nothing and the loop
continues with the remaining receives, while a receive of exactly `8 * n`
bytes pushes the (fully overwritten) buffer; consequently the number of
pushed samples equals the number of exact-size receives in the trace. -/
theorem C8_short_packet_drop :
    (∀ (n : Nat) (buf : List ℚ) (e : StreamingBoard.RecvEvent)
        (rest : List StreamingBoard.RecvEvent), e.res ≠ 8 * n →
        StreamingBoard.read_thread n buf (e :: rest) =
          StreamingBoard.read_thread n (e.data ++ buf.drop e.data.length) rest) ∧
    (∀ (n : Nat) (buf : List ℚ) (e : StreamingBoard.RecvEvent)
        (rest : List StreamingBoard.RecvEvent), e.res = 8 * n →
        StreamingBoard.read_thread n buf (e :: rest) =
          (e.data ++ buf.drop e.data.length) ::
            StreamingBoard.read_thread n (e.data ++ buf.drop e.data.length) rest) ∧
    (∀ (n : Nat) (buf : List ℚ) (evts : List StreamingBoard.RecvEvent),
        (StreamingBoard.read_thread n buf evts).length =
          (evts.filter (fun e => e.res == 8 * n)).length) := by
  refine ⟨?_, ?_, ?_⟩
  · intro n buf e rest h
    simp [StreamingBoard.read_thread, h]
  · intro n buf e rest h
    simp [StreamingBoard.read_thread, h]
  · intro n buf evts
    induction evts generalizing buf with
    | nil => rfl
    | cons e rest ih =>
      by_cases h : e.res = 8 * n
      · simp [StreamingBoard.read_thread, h, ih]
      · simp [StreamingBoard.read_thread, h, ih]

/-- Witness for C8: a 3-byte short receive pushes nothing, a full 16-byte
receive for two channels pushes the buffer. -/
theorem C8_short_packet_drop_witness :
    StreamingBoard.read_thread 2 [0, 0] [⟨3, [1]⟩] =
      StreamingBoard.read_thread 2 ([1] ++ ([0, 0] : List ℚ).drop 1) [] ∧
    StreamingBoard.read_thread 2 [0, 0] [⟨16, [1, 2]⟩] =
      ([1, 2] ++ ([0, 0] : List ℚ).drop 2) ::
        StreamingBoard.read_thread 2 ([1, 2] ++ ([0, 0] : List ℚ).drop 2) [] :=
  ⟨C8_short_packet_drop.1 2 [0, 0] ⟨3, [1]⟩ [] (by decide),
   C8_short_packet_drop.2.1 2 [0, 0] ⟨16, [1, 2]⟩ [] (by decide)⟩

/-- C9 counterexample: on the relay driver, release of the never-initialized
session left over from a failed socket init returns `STATUS_OK` but does not
destroy the owned client handle — after release the handle is still
non-null, contradicting the claim that release closes/destroys the transport
resource whenever it was open. -/
theorem C9_release_cex :
    leakedRelayState.client ≠ none ∧
    StreamingBoard.release_session leakedRelayState =
      (ExitCode.STATUS_OK, leakedRelayState) ∧
    (StreamingBoard.release_session leakedRelayState).2.client ≠ none := by
  refine ⟨?_, ?_, ?_⟩ <;> decide

/-- C9 (amended): for both drivers release is total and idempotent: it
returns `STATUS_OK` from every session state and releasing twice equals
releasing once, and afterwards `initialized = false`; the serial driver
always leaves the transport handle null and, on an initialized streaming
session, stops the stream first (streaming flag and sink cleared); the
relay driver destroys the client handle only when the session was
initialized — a never-initialized session (such as one left by a failed
socket init, which still owns a client) is returned completely unchanged,
its leaked handle retained. -/
theorem C9_release_amended :
    (∀ s : FreeEEG32.State,
        (FreeEEG32.release_session s).1 = ExitCode.STATUS_OK ∧
        (FreeEEG32.release_session s).2.serial = none ∧
        (FreeEEG32.release_session s).2.initialized = false ∧
        (s.is_streaming = true → s.initialized = true →
          (FreeEEG32.release_session s).2.is_streaming = false ∧
          (FreeEEG32.release_session s).2.streamer = false) ∧
        FreeEEG32.release_session (FreeEEG32.release_session s).2 =
          (ExitCode.STATUS_OK, (FreeEEG32.release_session s).2)) ∧
    (∀ s : StreamingBoard.State,
        (StreamingBoard.release_session s).1 = ExitCode.STATUS_OK ∧
        (StreamingBoard.release_session s).2.initialized = false ∧
        (s.initialized = true →
          (StreamingBoard.release_session s).2.client = none ∧
          (s.is_streaming = true →
            (StreamingBoard.release_session s).2.is_streaming = false ∧
            (StreamingBoard.release_session s).2.streamer = false)) ∧
        (s.initialized = false → (StreamingBoard.release_session s).2 = s) ∧
        StreamingBoard.release_session (StreamingBoard.release_session s).2 =
          (ExitCode.STATUS_OK, (StreamingBoard.release_session s).2)) := by
  constructor
  · intro s
    obtain ⟨ser, st, iss, ka, ini⟩ := s
    cases ini <;> cases iss <;> cases ser <;>
      simp [FreeEEG32.release_session, FreeEEG32.stop_stream]
  · intro s
    obtain ⟨cl, st, iss, ka, ini, bid⟩ := s
    cases ini <;> cases iss <;> cases cl <;>
      simp [StreamingBoard.release_session, StreamingBoard.stop_stream]

/-- Witness for C9 (amended) at concrete initialized streaming sessions of
both drivers. -/
theorem C9_release_witness :
    (FreeEEG32.release_session
        ⟨some "p", true, true, true, true⟩).2.is_streaming = false ∧
    (StreamingBoard.release_session
        ⟨some ("225.1.1.1", 6677), true, true, true, true, 0⟩).2.client = none :=
  ⟨((C9_release_amended.1 ⟨some "p", true, true, true, true⟩).2.2.2.1 rfl rfl).1,
   ((C9_release_amended.2
      ⟨some ("225.1.1.1", 6677), true, true, true, true, 0⟩).2.2.1 rfl).1⟩

/-- C10: when the relay's `prepare_session` fails at socket init after the
delegate identifier parsed, it returns `GENERAL_ERROR` with
`initialized = false`, but two fields remain durably mutated: `board_id`
holds the parsed delegate identifier (no longer the streaming-board id) and
the owned client handle is the retained, non-null allocated client; a
subsequent `release_session` on this never-initialized session returns the
state unchanged, so it does not destroy that client handle. -/
theorem C10_relay_prepare_failure_frame_effect (init_res : Int)
    (params : InputParams) (s : StreamingBoard.State) (d : Int)
    (h0 : s.initialized = false) (hip : params.ip_address ≠ "")
    (hinfo : params.other_info ≠ "") (hport : params.ip_port ≠ 0)
    (hstoi : stoi params.other_info = some d) (hinit : init_res ≠ 0)
    (hd : d ≠ StreamingBoard.STREAMING_BOARD_ID) :
    (StreamingBoard.prepare_session init_res params s).1 = ExitCode.GENERAL_ERROR ∧
    (StreamingBoard.prepare_session init_res params s).2.1.initialized = false ∧
    (StreamingBoard.prepare_session init_res params s).2.1.board_id = d ∧
    (StreamingBoard.prepare_session init_res params s).2.1.board_id ≠
      StreamingBoard.STREAMING_BOARD_ID ∧
    (StreamingBoard.prepare_session init_res params s).2.1.client =
      some (params.ip_address, params.ip_port) ∧
    StreamingBoard.release_session
        (StreamingBoard.prepare_session init_res params s).2.1 =
      (ExitCode.STATUS_OK, (StreamingBoard.prepare_session init_res params s).2.1) := by
  have hmain :
      StreamingBoard.prepare_session init_res params s =
        (ExitCode.GENERAL_ERROR,
          { s with board_id := d,
                   client := some (params.ip_address, params.ip_port),
                   initialized := false }, 1) := by
    unfold StreamingBoard.prepare_session
    rw [h0]
    simp only [Bool.false_eq_true, if_false]
    rw [if_neg (by push_neg; exact ⟨hip, hinfo, hport⟩), hstoi]
    simp [hinit, h0]
  rw [hmain]
  refine ⟨rfl, rfl, rfl, hd, rfl, ?_⟩
  simp [StreamingBoard.release_session]

/-- Witness for C10 at a concrete failing socket init with delegate id 0. -/
theorem C10_relay_prepare_failure_witness :
    (StreamingBoard.prepare_session 1 ⟨"225.1.1.1", 6677, "0", ""⟩
        StreamingBoard.initState).2.1.board_id = 0 ∧
    (StreamingBoard.prepare_session 1 ⟨"225.1.1.1", 6677, "0", ""⟩
        StreamingBoard.initState).2.1.client = some ("225.1.1.1", 6677) :=
  ⟨(C10_relay_prepare_failure_frame_effect 1 ⟨"225.1.1.1", 6677, "0", ""⟩
      StreamingBoard.initState 0 rfl (by decide) (by decide) (by decide)
      (by decide) (by decide) (by decide)).2.2.1,
   (C10_relay_prepare_failure_frame_effect 1 ⟨"225.1.1.1", 6677, "0", ""⟩
      StreamingBoard.initState 0 rfl (by decide) (by decide) (by decide)
      (by decide) (by decide) (by decide)).2.2.2.2.1⟩
